import Mathlib

/-!
Verification of the news-analysis Flask service (`src/app.py`).

The service owns only a small amount of logic: threshold labelling of
sentiment/subjectivity scores, word counting, reading-time rounding, summary
truncation, and the request/response error paths of the two handlers
`analyze` (POST /analyze) and `analyze_local` (GET /analyze_local).  External
collaborators (article extraction via `newspaper`, scoring via `textblob`,
JSON parsing) are modelled as parameters: a fallible fetch function, a score
oracle `blob : String → ℚ × ℚ` returning (polarity, subjectivity), and an
`Except`-valued request-body parse.  Machine floats are modelled as ℚ;
Python's builtin banker's rounding is modelled exactly.
-/

/-- Python's builtin `round` on a real value: nearest integer, ties to the
even neighbour (round-half-to-even).  Used by the code in
`reading_time = f"{round(word_count / 200)} min read"` and in
`round(analysis.polarity, 2)`. -/
def pyRound (q : ℚ) : ℤ :=
  if Int.fract q < 1/2 then ⌊q⌋
  else if 1/2 < Int.fract q then ⌊q⌋ + 1
  else if ⌊q⌋ % 2 = 0 then ⌊q⌋ else ⌊q⌋ + 1

/-- Python `round(x, 2)`: `x` rounded to 2 decimal places, ties to even. -/
def round2 (q : ℚ) : ℚ := (pyRound (q * 100) : ℚ) / 100

/-- `'Positive' if polarity > 0 else 'Negative' if polarity < 0 else 'Neutral'`
(src/app.py lines 65 and 109). -/
def sentimentLabel (polarity : ℚ) : String :=
  if polarity > 0 then "Positive" else if polarity < 0 then "Negative" else "Neutral"

/-- `'Low' if subjectivity < 0.3 else 'Moderate' if subjectivity < 0.7 else 'High'`
(src/app.py lines 67 and 111). -/
def biasLabel (subjectivity : ℚ) : String :=
  if subjectivity < 0.3 then "Low" else if subjectivity < 0.7 then "Moderate" else "High"

/-- `'True' if subjectivity < 0.5 else 'False'` (src/app.py lines 68 and 112). -/
def credibilityLabel (subjectivity : ℚ) : String :=
  if subjectivity < 0.5 then "True" else "False"

/-- Helper for `len(text.split())`.  Python `str.split()` with no arguments
splits on runs of whitespace and discards empty pieces, so the number of
pieces is the number of maximal non-whitespace runs.  The boolean argument
records whether the previous character was inside a word. -/
def wordCountAux : List Char → Bool → Nat
  | [], _ => 0
  | c :: cs, inWord =>
    if c.isWhitespace then wordCountAux cs false
    else (if inWord then 0 else 1) + wordCountAux cs true

/-- `word_count = len(text.split())` (src/app.py lines 70 and 114). -/
def wordCount (s : String) : Nat := wordCountAux s.data false

/-- `round(word_count / 200)` (src/app.py lines 71 and 115). -/
def readingMinutes (wc : Nat) : ℤ := pyRound ((wc : ℚ) / 200)

/-- `reading_time = f"{round(word_count / 200)} min read"` (src/app.py
lines 71 and 115). -/
def readingTime (wc : Nat) : String := toString (readingMinutes wc) ++ " min read"

/-- `not text.strip()` (src/app.py line 104): true iff every character of the
string is whitespace, in particular for the empty string. -/
def isBlank (s : String) : Bool := s.data.all Char.isWhitespace

/-- Python slice `text[:n]`: the first `n` characters (all of `text` when it
is shorter than `n`). -/
def pyTake (s : String) (n : Nat) : String := ⟨s.data.take n⟩

/-- The fields of an extracted article as produced by
`Article(url); download(); parse(); nlp()`: `article.title`,
`article.authors`, `article.text`, `article.summary`. -/
structure Article where
  title : String
  authors : List String
  text : String
  summary : String

/-- The JSON object returned with HTTP 200 by both handlers
(src/app.py lines 73-83 and 117-127). -/
structure AnalysisResponse where
  title : String
  author : String
  summary : String
  sentiment : String
  polarity : ℚ
  bias : String
  credibility : String
  word_count : Nat
  reading_time : String

/-- An HTTP response of the service: either `jsonify({'error': msg}), status`
or `jsonify(response), 200`. -/
inductive HttpResponse where
  | err (status : Nat) (msg : String)
  | ok (status : Nat) (body : AnalysisResponse)

/-- The parsed request body of POST /analyze; `url?` is `data.get('url')`
(src/app.py line 51). -/
structure ReqData where
  url? : Option String

/-- The success-path response of `analyze` (src/app.py lines 63-83), built
from the extracted article and the TextBlob scores of `article.text`. -/
def analyzeResponse (a : Article) (blob : String → ℚ × ℚ) : AnalysisResponse :=
  let polarity := round2 (blob a.text).1
  let subjectivity := (blob a.text).2
  let wc := wordCount a.text
  { title := if a.title = "" then "N/A" else a.title
    author := if a.authors = [] then "N/A" else String.intercalate ", " a.authors
    summary := if a.summary = "" then "N/A" else a.summary
    sentiment := sentimentLabel polarity
    polarity := polarity
    bias := biasLabel subjectivity
    credibility := credibilityLabel subjectivity
    word_count := wc
    reading_time := readingTime wc }

/-- The handler of POST /analyze (src/app.py lines 46-88).  `getJson` is the
outcome of `request.get_json()` (`error e` = the call raised an exception
with message `e`); `fetch url` is the outcome of
`Article(url); download(); parse(); nlp()`; `blob` gives the TextBlob
(polarity, subjectivity) scores of a text.  An exception raised anywhere in
the `try` block is caught by the handler's `except Exception` clause, which
returns HTTP 500 with `'Failed to analyze article: ' + str(e)`. -/
def analyze (getJson : Except String ReqData) (fetch : String → Except String Article)
    (blob : String → ℚ × ℚ) : HttpResponse :=
  match getJson with
  | .error e => .err 500 ("Failed to analyze article: " ++ e)
  | .ok data =>
    match data.url? with
    | none => .err 400 "No URL provided"
    | some url =>
      if url = "" then .err 400 "No URL provided"
      else
        match fetch url with
        | .error e => .err 500 ("Failed to analyze article: " ++ e)
        | .ok article =>
          if article.text = "" then .err 400 "Unable to fetch article content"
          else .ok 200 (analyzeResponse article blob)

/-- `text[:300] + ('...' if len(text) > 300 else '')` (src/app.py line 120). -/
def localSummary (text : String) : String :=
  pyTake text 300 ++ (if text.length > 300 then "..." else "")

/-- The success-path response of `analyze_local` (src/app.py lines 107-127). -/
def localResponse (text : String) (blob : String → ℚ × ℚ) : AnalysisResponse :=
  let polarity := round2 (blob text).1
  let subjectivity := (blob text).2
  let wc := wordCount text
  { title := "Sample Article"
    author := "Local Test"
    summary := localSummary text
    sentiment := sentimentLabel polarity
    polarity := polarity
    bias := biasLabel subjectivity
    credibility := credibilityLabel subjectivity
    word_count := wc
    reading_time := readingTime wc }

/-- The handler of GET /analyze_local (src/app.py lines 91-131).  `file?` is
the contents of `sample_article.txt` when that file exists, `none` when it
does not. -/
def analyze_local (file? : Option String) (blob : String → ℚ × ℚ) : HttpResponse :=
  match file? with
  | none => .err 400 "sample_article.txt not found"
  | some text =>
    if isBlank text then .err 400 "sample article is empty"
    else .ok 200 (localResponse text blob)

theorem sentimentLabel_iff (p : ℚ) :
    (sentimentLabel p = "Positive" ↔ 0 < p) ∧ (sentimentLabel p = "Negative" ↔ p < 0) ∧
    (sentimentLabel p = "Neutral" ↔ p = 0) := by
  unfold sentimentLabel
  split_ifs with h1 h2
  · simp [h1, lt_asymm h1, h1.ne.symm]
  · simp [h2, h1, h2.ne]
  · have h3 : p = 0 := le_antisymm (not_lt.mp (by simpa using h1)) (not_lt.mp h2)
    simp [h3]

/-- C1: the sentiment label in the response is "Positive" iff the response's
polarity (the raw score rounded to 2 decimal places, from which the code
derives the label) is positive, "Negative" iff it is negative and "Neutral"
iff it is zero; and both handlers indeed compute the label from the rounded
score and report the rounded score as the polarity field. -/
theorem sentiment_label_spec (praw : ℚ) :
    (sentimentLabel (round2 praw) = "Positive" ↔ 0 < round2 praw) ∧
    (sentimentLabel (round2 praw) = "Negative" ↔ round2 praw < 0) ∧
    (sentimentLabel (round2 praw) = "Neutral" ↔ round2 praw = 0) ∧
    (∀ a blob, (analyzeResponse a blob).sentiment = sentimentLabel (round2 (blob a.text).1)
      ∧ (analyzeResponse a blob).polarity = round2 (blob a.text).1) ∧
    (∀ t blob, (localResponse t blob).sentiment = sentimentLabel (round2 (blob t).1)
      ∧ (localResponse t blob).polarity = round2 (blob t).1) := by
  obtain ⟨hp, hn, hz⟩ := sentimentLabel_iff (round2 praw)
  exact ⟨hp, hn, hz, fun a blob => ⟨rfl, rfl⟩, fun t blob => ⟨rfl, rfl⟩⟩

theorem biasLabel_iff (s : ℚ) :
    (biasLabel s = "Low" ↔ s < 0.3) ∧ (biasLabel s = "Moderate" ↔ 0.3 ≤ s ∧ s < 0.7) ∧
    (biasLabel s = "High" ↔ 0.7 ≤ s) := by
  unfold biasLabel
  split_ifs with h1 h2
  · have : s < 0.7 := lt_trans h1 (by norm_num)
    simp [h1, not_le.mpr h1, not_le.mpr this]
  · simp [h1, h2, not_lt.mp h1, not_le.mpr h2]
  · simp [h1, h2, not_lt.mp h2, not_lt.mp h1, le_trans (by norm_num : (0.3:ℚ) ≤ 0.7) (not_lt.mp h2)]

/-- C2: for every subjectivity value in [0,1] the bias label is "Low" iff
s < 0.3, "Moderate" iff 0.3 ≤ s < 0.7 and "High" iff 0.7 ≤ s, and exactly one
of the three labels is produced. -/
theorem bias_label_spec (s : ℚ) (h0 : 0 ≤ s) (h1 : s ≤ 1) :
    (biasLabel s = "Low" ↔ s < 0.3) ∧
    (biasLabel s = "Moderate" ↔ 0.3 ≤ s ∧ s < 0.7) ∧
    (biasLabel s = "High" ↔ 0.7 ≤ s) ∧
    (biasLabel s = "Low" ∨ biasLabel s = "Moderate" ∨ biasLabel s = "High") ∧
    (∀ a blob, (analyzeResponse a blob).bias = biasLabel (blob a.text).2) ∧
    (∀ t blob, (localResponse t blob).bias = biasLabel (blob t).2) := by
  obtain ⟨hl, hm, hh⟩ := biasLabel_iff s
  refine ⟨hl, hm, hh, ?_, fun a blob => rfl, fun t blob => rfl⟩
  rcases lt_or_le s 0.3 with h | h
  · exact Or.inl (hl.mpr h)
  · rcases lt_or_le s 0.7 with h' | h'
    · exact Or.inr (Or.inl (hm.mpr ⟨h, h'⟩))
    · exact Or.inr (Or.inr (hh.mpr h'))

/-- C2 witness: instantiated at s = 0. -/
theorem bias_label_spec_witness :
    (biasLabel 0 = "Low" ↔ (0:ℚ) < 0.3) ∧
    (biasLabel 0 = "Moderate" ↔ (0.3:ℚ) ≤ 0 ∧ (0:ℚ) < 0.7) ∧
    (biasLabel 0 = "High" ↔ (0.7:ℚ) ≤ 0) ∧
    (biasLabel 0 = "Low" ∨ biasLabel 0 = "Moderate" ∨ biasLabel 0 = "High") ∧
    (∀ a blob, (analyzeResponse a blob).bias = biasLabel (blob a.text).2) ∧
    (∀ t blob, (localResponse t blob).bias = biasLabel (blob t).2) :=
  bias_label_spec 0 (le_refl 0) zero_le_one

/-- C3: the credibility label is "True" iff subjectivity < 0.5 and "False"
otherwise, i.e. iff 0.5 ≤ subjectivity. -/
theorem credibility_label_spec (s : ℚ) :
    (credibilityLabel s = "True" ↔ s < 0.5) ∧
    (credibilityLabel s = "False" ↔ 0.5 ≤ s) ∧
    (∀ a blob, (analyzeResponse a blob).credibility = credibilityLabel (blob a.text).2) ∧
    (∀ t blob, (localResponse t blob).credibility = credibilityLabel (blob t).2) := by
  have key : (credibilityLabel s = "True" ↔ s < 0.5) ∧
      (credibilityLabel s = "False" ↔ 0.5 ≤ s) := by
    unfold credibilityLabel
    split_ifs with h
    · simp [h, not_le.mpr h]
    · simp [h, not_lt.mp h]
  exact ⟨key.1, key.2, fun a blob => rfl, fun t blob => rfl⟩

theorem le_pyRound (q : ℚ) : ⌊q⌋ ≤ pyRound q := by
  unfold pyRound; split_ifs <;> omega

theorem pyRound_le (q : ℚ) : pyRound q ≤ ⌊q⌋ + 1 := by
  unfold pyRound; split_ifs <;> omega

/-- Python's builtin rounding is monotone. -/
theorem pyRound_mono {q1 q2 : ℚ} (h : q1 ≤ q2) : pyRound q1 ≤ pyRound q2 := by
  rcases lt_or_eq_of_le (Int.floor_le_floor h) with hf | hf
  · calc pyRound q1 ≤ ⌊q1⌋ + 1 := pyRound_le q1
      _ ≤ ⌊q2⌋ := by omega
      _ ≤ pyRound q2 := le_pyRound q2
  · have hfr : Int.fract q1 ≤ Int.fract q2 := by
      unfold Int.fract; rw [hf]; linarith
    unfold pyRound
    rw [hf]
    split_ifs <;> first | omega | linarith

/-- C7: the reading-time minute value round(word_count / 200) is monotone
non-decreasing in the word count, and reading_time is that value formatted
as "N min read". -/
theorem reading_time_mono (w1 w2 : Nat) (h : w1 ≤ w2) :
    readingMinutes w1 ≤ readingMinutes w2 ∧
    (∀ w : Nat, readingTime w = toString (readingMinutes w) ++ " min read") := by
  refine ⟨pyRound_mono ?_, fun w => rfl⟩
  have : (w1 : ℚ) ≤ (w2 : ℚ) := by exact_mod_cast h
  linarith

/-- C7 witness: word counts 3 ≤ 500. -/
theorem reading_time_mono_witness :
    readingMinutes 3 ≤ readingMinutes 500 ∧
    (∀ w : Nat, readingTime w = toString (readingMinutes w) ++ " min read") :=
  reading_time_mono 3 500 (by decide)

/-- C4: analyze answers 400 "No URL provided" iff the parsed body's url field
is absent or empty; 400 "Unable to fetch article content" iff a url was given
and the fetched article's text is empty; and any exception during fetch or
parse, or while parsing the request body, yields 500 with
"Failed to analyze article: " followed by the exception message.  The model
is a pure function, so no state is mutated on any path. -/
theorem analyze_error_spec (data : ReqData) (fetch : String → Except String Article)
    (blob : String → ℚ × ℚ) :
    (analyze (.ok data) fetch blob = .err 400 "No URL provided" ↔
      data.url? = none ∨ data.url? = some "") ∧
    (∀ u a, data.url? = some u → u ≠ "" → fetch u = .ok a →
      (analyze (.ok data) fetch blob = .err 400 "Unable to fetch article content" ↔
        a.text = "")) ∧
    (∀ u e, data.url? = some u → u ≠ "" → fetch u = .error e →
      analyze (.ok data) fetch blob = .err 500 ("Failed to analyze article: " ++ e)) ∧
    (∀ e, analyze (.error e) fetch blob = .err 500 ("Failed to analyze article: " ++ e)) := by
  refine ⟨?_, ?_, ?_, fun e => rfl⟩
  · cases hd : data.url? with
    | none => simp [analyze, hd]
    | some u =>
      by_cases hu : u = ""
      · subst hu; simp [analyze, hd]
      · cases hf : fetch u with
        | error e => simp [analyze, hd, hu, hf]
        | ok a => by_cases ht : a.text = "" <;> simp [analyze, hd, hu, hf, ht]
  · intro u a hd hu hf
    by_cases ht : a.text = "" <;> simp [analyze, hd, hu, hf, ht]
  · intro u e hd hu hf
    simp [analyze, hd, hu, hf]

/-- C4 witness: a body with a url present, a fetch producing an article with
empty text, answered with HTTP 400 "Unable to fetch article content". -/
theorem analyze_error_spec_witness :
    analyze (.ok ⟨some "u"⟩) (fun _ => .ok ⟨"T", [], "", "S"⟩) (fun _ => (0, 0))
      = .err 400 "Unable to fetch article content" :=
  ((analyze_error_spec ⟨some "u"⟩ (fun _ => .ok ⟨"T", [], "", "S"⟩)
    (fun _ => (0, 0))).2.1 "u" ⟨"T", [], "", "S"⟩ rfl (by decide) rfl).mpr rfl

/-- C8: a request body that does not parse as JSON makes `request.get_json()`
raise, which the generic handler reports as HTTP 500 with
"Failed to analyze article: " and the exception message — never as the
HTTP 400 validation error that a parseable body with a missing url key
receives. -/
theorem bad_json_is_500 (e : String) (fetch : String → Except String Article)
    (blob : String → ℚ × ℚ) :
    analyze (.error e) fetch blob = .err 500 ("Failed to analyze article: " ++ e) ∧
    (∀ s, analyze (.error e) fetch blob ≠ .err 400 s) ∧
    analyze (.ok ⟨none⟩) fetch blob = .err 400 "No URL provided" :=
  ⟨rfl, fun s h => by simp [analyze] at h, rfl⟩

/-- C8 witness: a concrete JSON parse failure answered with HTTP 500. -/
theorem bad_json_is_500_witness :
    analyze (.error "Expecting value") (fun _ => .error "x") (fun _ => (0, 0))
      = .err 500 ("Failed to analyze article: " ++ "Expecting value") :=
  (bad_json_is_500 "Expecting value" (fun _ => .error "x") (fun _ => (0, 0))).1

/-- C5: analyze_local answers 400 "sample_article.txt not found" iff the
sample file is absent, 400 "sample article is empty" iff the file exists but
its contents are blank or whitespace-only, and otherwise 200 with the
analysis response. -/
theorem analyze_local_error_spec (file? : Option String) (blob : String → ℚ × ℚ) :
    (analyze_local file? blob = .err 400 "sample_article.txt not found" ↔ file? = none) ∧
    (analyze_local file? blob = .err 400 "sample article is empty" ↔
      ∃ text, file? = some text ∧ isBlank text = true) ∧
    (∀ text, file? = some text → isBlank text = false →
      analyze_local file? blob = .ok 200 (localResponse text blob)) := by
  refine ⟨?_, ?_, ?_⟩
  · cases file? with
    | none => simp [analyze_local]
    | some t => cases hb : isBlank t <;> simp [analyze_local, hb]
  · cases file? with
    | none => simp [analyze_local]
    | some t => cases hb : isBlank t <;> simp [analyze_local, hb]
  · intro t ht hb
    subst ht
    simp [analyze_local, hb]

/-- C5 witness: a whitespace-only sample file answered with HTTP 400
"sample article is empty". -/
theorem analyze_local_error_spec_witness :
    analyze_local (some " ") (fun _ => (0, 0)) = .err 400 "sample article is empty" :=
  (analyze_local_error_spec (some " ") (fun _ => (0, 0))).2.1.mpr ⟨" ", rfl, rfl⟩

theorem analyze_local_ok_inv (text : String) (blob : String → ℚ × ℚ)
    (r : AnalysisResponse) (h : analyze_local (some text) blob = .ok 200 r) :
    isBlank text = false ∧ r = localResponse text blob := by
  cases hb : isBlank text with
  | true => simp [analyze_local, hb] at h
  | false =>
    simp [analyze_local, hb] at h
    exact ⟨rfl, h.symm⟩

theorem pyTake_of_le (s : String) (n : Nat) (h : s.length ≤ n) : pyTake s n = s := by
  unfold pyTake
  cases s with
  | mk l =>
    have hl : l.length ≤ n := h
    rw [List.take_of_length_le hl]

/-- C6: on every successful analyze_local response over local text t, the
summary is the first 300 characters of t followed by "..." when t is longer
than 300 characters, and t itself with no suffix when t is at most 300
characters long. -/
theorem local_summary_spec (text : String) (blob : String → ℚ × ℚ)
    (r : AnalysisResponse) (h : analyze_local (some text) blob = .ok 200 r) :
    (300 < text.length → r.summary = pyTake text 300 ++ "...") ∧
    (text.length ≤ 300 → r.summary = text) := by
  obtain ⟨-, rfl⟩ := analyze_local_ok_inv text blob r h
  constructor
  · intro hlen
    show localSummary text = _
    unfold localSummary
    rw [if_pos hlen]
  · intro hlen
    show localSummary text = _
    unfold localSummary
    rw [if_neg (not_lt.mpr hlen), pyTake_of_le text 300 hlen, String.append_empty]

/-- C6 witness: a 2-character sample text whose summary is the text itself. -/
theorem local_summary_spec_witness :
    (localResponse "hi" (fun _ => (0, 0))).summary = "hi" :=
  (local_summary_spec "hi" (fun _ => (0, 0)) (localResponse "hi" (fun _ => (0, 0)))
    rfl).2 (by decide)

theorem wordCountAux_pos (l : List Char) (hc : ∃ c ∈ l, c.isWhitespace = false) :
    1 ≤ wordCountAux l false := by
  induction l with
  | nil => simp at hc
  | cons c cs ih =>
    rcases hc with ⟨d, hd, hw⟩
    rcases List.mem_cons.mp hd with rfl | hd2
    · unfold wordCountAux
      rw [if_neg (by simp [hw])]
      simp
    · unfold wordCountAux
      by_cases hcw : c.isWhitespace
      · rw [if_pos hcw]
        exact ih ⟨d, hd2, hw⟩
      · rw [if_neg hcw]
        simp

/-- C9: every successful analyze_local response carries word_count ≥ 1: the
whitespace-only guard ensures the text has at least one non-whitespace
character, hence at least one whitespace-delimited token. -/
theorem word_count_pos (text : String) (blob : String → ℚ × ℚ)
    (r : AnalysisResponse) (h : analyze_local (some text) blob = .ok 200 r) :
    1 ≤ r.word_count := by
  obtain ⟨hb, rfl⟩ := analyze_local_ok_inv text blob r h
  show 1 ≤ wordCount text
  unfold wordCount
  apply wordCountAux_pos
  unfold isBlank at hb
  simpa using hb

/-- C9 witness: the sample text "hi" yields word_count at least 1. -/
theorem word_count_pos_witness :
    1 ≤ (localResponse "hi" (fun _ => (0, 0))).word_count :=
  word_count_pos "hi" (fun _ => (0, 0)) (localResponse "hi" (fun _ => (0, 0))) rfl

/-- C10: in every successful analyze response the title field is the
extracted title when it is non-empty and "N/A" otherwise, and likewise the
summary field is the extracted summary when non-empty and "N/A" otherwise. -/
theorem na_fallback_spec (a : Article) (blob : String → ℚ × ℚ) :
    ((a.title ≠ "" → (analyzeResponse a blob).title = a.title) ∧
     (a.title = "" → (analyzeResponse a blob).title = "N/A") ∧
     (a.summary ≠ "" → (analyzeResponse a blob).summary = a.summary) ∧
     (a.summary = "" → (analyzeResponse a blob).summary = "N/A")) ∧
    (∀ data fetch u, data.url? = some u → u ≠ "" → fetch u = .ok a → a.text ≠ "" →
      analyze (.ok data) fetch blob = .ok 200 (analyzeResponse a blob)) := by
  constructor
  · refine ⟨fun h => ?_, fun h => ?_, fun h => ?_, fun h => ?_⟩ <;>
      simp [analyzeResponse, h]
  · intro data fetch u hd hu hf ht
    simp [analyze, hd, hu, hf, ht]

/-- C10 witness: an article with empty title and non-empty summary. -/
theorem na_fallback_spec_witness :
    (analyzeResponse ⟨"", [], "body", "S"⟩ (fun _ => (0, 0))).title = "N/A" ∧
    (analyzeResponse ⟨"", [], "body", "S"⟩ (fun _ => (0, 0))).summary = "S" :=
  ⟨(na_fallback_spec ⟨"", [], "body", "S"⟩ (fun _ => (0, 0))).1.2.1 rfl,
   (na_fallback_spec ⟨"", [], "body", "S"⟩ (fun _ => (0, 0))).1.2.2.1 (by decide)⟩
